import Mathlib

/-!
Shallow embedding of the acorn router core (oakserver/acorn) in Lean 4,
together with theorems settling the frozen claims about its
specification.  The embedding follows the TypeScript sources:

* `route.ts` — `PathRoute` (`matches`, `handle`)
* `status_route.ts` — `StatusRoute` (`matches`, `handle`)
* `router.ts` — `Router.#handle`, `Router.#handleStatus`, `Router.#error`,
  `Router.#addRoute`, `Router.delete`, `Router.listen`
* `request_server_bun.ts` — `BunRequestEvent.respond` / `.error`
* `utils.ts` — `appendHeaders`, `decodeComponent`

JS `Response` values are abstracted to a status, a body string and a
header list; handler values that are not `Response` instances are
abstracted to a string payload.  Asynchronous code is embedded by
sequentialising the awaits of a single request's dispatch, which the
event loop runs without interleaving other turns of the same request.
-/

namespace Acorn

/-- Abstraction of a fetch-API `Response`: the status code, the body and
the headers (a list of name/value pairs, in insertion order). -/
structure Response where
  status : Nat
  body : String
  headers : List (String × String) := []
deriving Repr, DecidableEq

/-- Embeds `appendHeaders` (utils.ts): appends every pair of the header
bag onto the response's headers and returns the response. -/
def appendHeaders (response : Response) (headers : List (String × String)) : Response :=
  { response with headers := response.headers ++ headers }

/-- The observable state of a `RequestEvent`: whether `respond`/`error`
has been invoked (`#responded` in request_server_bun.ts) and, if so,
which response was resolved to the client. -/
structure RequestEvent where
  responded : Bool := false
  sent : Option Response := none
deriving Repr, DecidableEq

/-- Faults that escape the router's dispatch. -/
inductive RouterFault where
  | alreadyResponded
deriving Repr, DecidableEq

/-- Embeds `BunRequestEvent.respond` (request_server_bun.ts): throws an
`InternalServerError` "Request already responded to." when `#responded`
is already set, otherwise marks the event responded and resolves the
response promise with the given response. -/
def RequestEvent.respond (ev : RequestEvent) (response : Response) :
    Except RouterFault RequestEvent :=
  if ev.responded then .error .alreadyResponded
  else .ok { responded := true, sent := some response }

/-- The composite the router writes as
`if (!requestEvent.responded) { requestEvent.respond(r); }`: the guard
makes the call total, leaving the event unchanged when it has already
been responded to. -/
def RequestEvent.respondChecked (ev : RequestEvent) (response : Response) : RequestEvent :=
  if ev.responded then ev
  else { responded := true, sent := some response }

/-- One entry of a status filter (status_route.ts `Status | StatusRange`):
an exact numeric code or one of the literal range tags. -/
inductive StatusFilterEntry where
  | code (n : Nat)
  | star
  | info
  | success
  | redirect
  | clientError
  | serverError
  | error
deriving Repr, DecidableEq

/-- Modelled from the spec: `isInformationalStatus` of `@oak/commons/status`
is not in the tree; per the spec the `info` range tag is `100`–`199`. -/
def isInformationalStatus (s : Nat) : Bool := 100 ≤ s && s ≤ 199

/-- Modelled from the spec: `isSuccessfulStatus` of `@oak/commons/status`
is not in the tree; per the spec the `success` range tag is `200`–`299`. -/
def isSuccessfulStatus (s : Nat) : Bool := 200 ≤ s && s ≤ 299

/-- Modelled from the spec: `isRedirectStatus` of `@oak/commons/status`
is not in the tree; per the spec the `redirect` range tag is `300`–`399`. -/
def isRedirectStatus (s : Nat) : Bool := 300 ≤ s && s ≤ 399

/-- Modelled from the spec: `isClientErrorStatus` of `@oak/commons/status`
is not in the tree; per the spec the `client-error` range tag is `400`–`499`. -/
def isClientErrorStatus (s : Nat) : Bool := 400 ≤ s && s ≤ 499

/-- Modelled from the spec: `isServerErrorStatus` of `@oak/commons/status`
is not in the tree; per the spec the `server-error` range tag is `500`–`599`. -/
def isServerErrorStatus (s : Nat) : Bool := 500 ≤ s && s ≤ 599

/-- Modelled from the spec: `isErrorStatus` of `@oak/commons/status` is
not in the tree; per the spec the `error` range tag is `400`–`599`. -/
def isErrorStatus (s : Nat) : Bool := isClientErrorStatus s || isServerErrorStatus s

/-- A registered status route (status_route.ts `StatusRoute`): the status
filter and the handler.  The handler receives the status and the current
response and returns either a replacement response or `none` for the
JS `undefined`; the context, schema and key ring, which the claims do
not touch, are omitted. -/
structure StatusRoute where
  status : List StatusFilterEntry
  handler : Nat → Response → Option Response

/-- Embeds the loop body of `StatusRoute.matches` (status_route.ts
178–223): entries are scanned in order; a numeric entry matches on
equality (otherwise `continue`), `"*"` returns `true` unconditionally,
and each range tag returns `true` when its range predicate holds,
otherwise falls through to the next entry; after the loop `false`. -/
def statusFilterMatches : List StatusFilterEntry → Nat → Bool
  | [], _ => false
  | item :: rest, status =>
    match item with
    | .code n => if status = n then true else statusFilterMatches rest status
    | .star => true
    | .info =>
      if isInformationalStatus status then true else statusFilterMatches rest status
    | .success =>
      if isSuccessfulStatus status then true else statusFilterMatches rest status
    | .redirect =>
      if isRedirectStatus status then true else statusFilterMatches rest status
    | .clientError =>
      if isClientErrorStatus status then true else statusFilterMatches rest status
    | .serverError =>
      if isServerErrorStatus status then true else statusFilterMatches rest status
    | .error =>
      if isErrorStatus status then true else statusFilterMatches rest status

/-- Embeds `StatusRoute.matches(response)` (status_route.ts): destructures
the response's status and scans the filter. -/
def StatusRoute.matches (route : StatusRoute) (response : Response) : Bool :=
  statusFilterMatches route.status response.status

/-- Embeds `StatusRoute.handle` (status_route.ts 145–172): invokes the
handler with the status and the response that was passed in; if the
result is a `Response`, returns it with the response-header bag appended,
otherwise (`undefined`) returns the response that was passed in. -/
def StatusRoute.handle (route : StatusRoute) (responseHeaders : List (String × String))
    (response : Response) : Response :=
  match route.handler response.status response with
  | some result => appendHeaders result responseHeaders
  | none => response

/-- The result of `PathRoute.matches` (route.ts): `true`, `false`, or the
`NOT_ALLOWED` marker returned when the pattern matched but the method is
not in the route's method list. -/
inductive MatchFlag where
  | matched
  | noMatch
  | notAllowed
deriving Repr, DecidableEq

/-- A value a route handler returns, before coercion by
`PathRoute.handle`: a `Response` instance, some other truthy value
(abstracted to its string payload; a falsy defined value takes the same
path as `undefined` in the source and is folded into `undef`), or
`undefined`. -/
inductive HandlerReturn where
  | response (r : Response)
  | value (v : String)
  | undef
deriving Repr

/-- A thrown error, as seen by the dispatch boundary.  An `HttpError`
carries its own status; a generic thrown value enters the boundary as an
`InternalServerError`, so the embedding gives every cause a status
(500 for generic errors) and a message. -/
structure ErrCause where
  status : Nat := 500
  msg : String
deriving Repr, DecidableEq

/-- The outcome of invoking a route handler: a returned value or a
thrown error.  The handler also receives and returns the request-event
state, since a handler may respond directly through context APIs. -/
inductive HandlerOutcome where
  | ret (r : HandlerReturn)
  | thrown (c : ErrCause)
deriving Repr

/-- What `PathRoute.handle` produces: a `Response | undefined`
(`.ok`) or a thrown error propagated to the router's catch (`.err`). -/
inductive HandleResult where
  | ok (r : Option Response)
  | err (c : ErrCause)
deriving Repr

/-- A registered path route (route.ts `PathRoute`).  The compiled
pattern `#regexp` is abstracted to `regexpMatch`, mapping a string to
the capture list on a match; `#paramKeys` keeps the capture names;
`params` is the mutable `#params` instance field (initially unset); the
handler receives the context's params and the event state.  The schema
is the empty descriptor that `Router.#addRoute` installs when a route is
registered without one, under which `validateResponse` passes the value
through; keys and logger are omitted. -/
structure PathRoute where
  methods : List String
  regexpMatch : String → Option (List String)
  paramKeys : List String
  params : Option (List (String × String)) := none
  handler : List (String × String) → RequestEvent → HandlerOutcome × RequestEvent

/-- The parameter map built inside `PathRoute.matches`: each capture is
paired with its key and percent-decoded with `decodeComponent`
(abstracted to the `decode` argument, since `decodeURIComponent` is a
runtime primitive); captures beyond the key list are skipped by the
`if (this.#paramKeys[i])` guard, which the zip reproduces. -/
def extractParams (decode : String → String) (keys captures : List String) :
    List (String × String) :=
  (keys.zip captures).map fun kc => (kc.1, decode kc.2)

/-- Embeds `PathRoute.matches` (route.ts 271–292): match the pathname
against the compiled pattern; on success return `NOT_ALLOWED` when the
method is not in the route's method list, otherwise build the parameter
map from the captures, store it in the `#params` instance field, and
return `true`.  The updated route is returned alongside the flag to make
the field write explicit.  The source file declares the two parameters
in the order `(method, pathname)` and the body reads them by name, which
this function embeds literally; note that the `Route` interface the
class implements (types.ts) declares the opposite order
`(pathname, method)`, and both call sites in router.ts pass
`(url.pathname, request.method)` positionally, which the dispatch
embedding below follows. -/
def PathRoute.matches (decode : String → String) (route : PathRoute)
    (method pathname : String) : MatchFlag × PathRoute :=
  match route.regexpMatch pathname with
  | some captures =>
    if route.methods.contains method then
      (.matched,
        { route with params := some (extractParams decode route.paramKeys captures) })
    else (.notAllowed, route)
  | none => (.noMatch, route)

/-- Embeds `PathRoute.handle` (route.ts 204–266): throw an
`InternalServerError` "Route parameters missing." when `#params` is
unset; otherwise invoke the handler with a context built from the stored
params.  A `Response` result gets the response-header bag appended; a
truthy non-`Response` result is validated (pass-through under the empty
schema) and wrapped via `Response.json` with the response headers; an
`undefined` result becomes a bare `204 No Content` response with a null
body. -/
def PathRoute.handle (route : PathRoute) (ev : RequestEvent)
    (responseHeaders : List (String × String)) : HandleResult × RequestEvent :=
  match route.params with
  | none => (.err { status := 500, msg := "Route parameters missing." }, ev)
  | some params =>
    match route.handler params ev with
    | (.thrown c, ev1) => (.err c, ev1)
    | (.ret (.response r), ev1) => (.ok (some (appendHeaders r responseHeaders)), ev1)
    | (.ret (.value v), ev1) =>
      (.ok (some { status := 200, body := v, headers := responseHeaders }), ev1)
    | (.ret .undef, ev1) => (.ok (some { status := 204, body := "" }), ev1)

/-- A request, reduced to what the dispatch loop reads from the event:
`requestEvent.request.method` and `requestEvent.url.pathname`. -/
structure Request where
  method : String
  pathname : String
deriving Repr, DecidableEq

/-- The router state the claims touch (router.ts `Router`): the ordered
route and status-route collections and the hooks.  `onRequest` may
mutate the event (it can respond early through the event); `onNotFound`
receives the pending response and may return a replacement as well as
respond through the event; `onError` receives the error message and may
return a response.  `onHandled`, logging, keys and route options are
omitted. -/
structure Router where
  routes : List PathRoute := []
  statusRoutes : List StatusRoute := []
  onRequest : Option (RequestEvent → RequestEvent) := none
  onNotFound : Option (RequestEvent → Response → Option Response × RequestEvent) := none
  onError : Option (RequestEvent → String → Option Response × RequestEvent) := none

/-- The default not-found response
(`createHttpError(Status.NotFound, "Not Found").asResponse(...)` in
router.ts 691–694), reduced to its status and message. -/
def notFoundResponse : Response := { status := 404, body := "Not Found" }

/-- The default error response built in `Router.#error` (router.ts
597–619): an `HttpError` cause is rendered with its own status
(`cause.asResponse`), a generic cause as a 500, which the embedding of
causes already folds into `ErrCause.status`. -/
def defaultErrorResponse (c : ErrCause) : Response :=
  { status := c.status, body := c.msg }

/-- Embeds `Router.#error` (router.ts 566–621): call the `onError` hook
when present; if it returned a response and the event has not responded,
respond with it and return; otherwise, if the event has not responded,
respond with the default error response. -/
def Router.error (router : Router) (ev : RequestEvent) (c : ErrCause) : RequestEvent :=
  match router.onError with
  | some hook =>
    let r := hook ev c.msg
    match r.1 with
    | some resp =>
      if r.2.responded then r.2.respondChecked (defaultErrorResponse c)
      else { responded := true, sent := some resp }
    | none => r.2.respondChecked (defaultErrorResponse c)
  | none => ev.respondChecked (defaultErrorResponse c)

/-- Embeds the status-chain loop of `Router.#handleStatus` (router.ts
731–744): `result` starts as the incoming response; every status route
whose filter matches the incoming response overwrites `result` with its
`handle` applied to that same incoming response; the final `result` is
returned.  The `response` variable is never reassigned inside the loop,
so both the match test and the handler argument use the response the
chain was entered with. -/
def statusChain (statusRoutes : List StatusRoute)
    (responseHeaders : List (String × String)) (response : Response) : Response :=
  statusRoutes.foldl
    (fun result route =>
      if route.matches response then route.handle responseHeaders response else result)
    response

/-- Embeds `Router.#handleStatus` (router.ts 719–745): when the response
has status `404 Not Found` and an `onNotFound` hook is registered, the
hook may replace the response (`?? response` keeps it otherwise); the
possibly replaced response then enters the status chain. -/
def Router.handleStatus (router : Router) (ev : RequestEvent)
    (responseHeaders : List (String × String)) (response : Response) :
    Response × RequestEvent :=
  let notFoundStep : Response × RequestEvent :=
    if response.status = 404 then
      match router.onNotFound with
      | some hook =>
        let r := hook ev response
        (r.1.getD response, r.2)
      | none => (response, ev)
    else (response, ev)
  (statusChain router.statusRoutes responseHeaders notFoundStep.1, notFoundStep.2)

/-- Embeds the route scan of `Router.#handle` (router.ts 642–686).  For
each route in order the router calls
`route.matches(requestEvent.url.pathname, requestEvent.request.method)`
(router.ts 644–647); the arguments bind positionally to
`PathRoute.matches`' declared `(method, pathname)` parameters, so the
program tests the compiled pattern against the request's method string
and the method list against the request's pathname, and the embedding
passes the arguments in exactly that positional order.  On a match the
router calls `handle` inside a try/catch.  A returned
response, when the event has not already responded, is run through
`#handleStatus` and then responded (the respond guarded by a fresh
`responded` check); the loop breaks as soon as the event is responded.
A thrown error is routed to `Router.error`, after which the loop breaks
when the event is responded.  The `response` accumulator mirrors the
`response` local of the source, which survives iterations.  The marker
`NOT_ALLOWED` is modelled per the spec as not dispatching the route
(spec §4.2: it exists only to produce a future `405`), since the
constant's definition is not in the tree. -/
def Router.handleLoop (router : Router) (decode : String → String) (req : Request)
    (responseHeaders : List (String × String)) :
    List PathRoute → Option Response → RequestEvent → Option Response × RequestEvent
  | [], response, ev => (response, ev)
  | route :: rest, response, ev =>
    let m := PathRoute.matches decode route req.pathname req.method
    if m.1 = .matched then
      match m.2.handle ev responseHeaders with
      | (.err c, ev1) =>
        let ev2 := router.error ev1 c
        if ev2.responded then (response, ev2)
        else router.handleLoop decode req responseHeaders rest response ev2
      | (.ok none, ev1) =>
        if ev1.responded then (none, ev1)
        else router.handleLoop decode req responseHeaders rest none ev1
      | (.ok (some resp), ev1) =>
        if ev1.responded then (some resp, ev1)
        else
          let s := router.handleStatus ev1 responseHeaders resp
          let ev2 := s.2.respondChecked s.1
          if ev2.responded then (some s.1, ev2)
          else router.handleLoop decode req responseHeaders rest (some s.1) ev2
    else router.handleLoop decode req responseHeaders rest response ev

/-- Embeds `Router.#handle` (router.ts 623–717), the dispatch of one
request event: fire `onRequest`; if the event is unresponded, scan the
routes; afterwards, if the event is still unresponded, take the
not-found path — default the response to the `404 Not Found` response,
run it through `#handleStatus`, and call `requestEvent.respond` without
re-checking the `responded` flag (router.ts 701), which is the one
respond of the dispatch that can raise the already-responded fault.
In-flight bookkeeping, timing and the `onHandled` hook are omitted. -/
def Router.dispatch (router : Router) (decode : String → String) (req : Request) :
    Except RouterFault RequestEvent :=
  let ev : RequestEvent := {}
  let ev := match router.onRequest with | some hook => hook ev | none => ev
  if ev.responded then .ok ev
  else
    let r := router.handleLoop decode req [] router.routes none ev
    if r.2.responded then .ok r.2
    else
      let base := r.1.getD notFoundResponse
      let s := router.handleStatus r.2 [] base
      RequestEvent.respond s.2 s.1

/-- Embeds the construction in `Router.#addRoute` (router.ts 456–564):
`new PathRoute(path, methods, schemaDescriptor, handler, ...)` compiled
with `pathToRegexp`, added to the route set.  The compiled matcher and
key list stand for `pathToRegexp(path)`. -/
def Router.addRoute (methods : List String)
    (compiled : String → Option (List String)) (keys : List String)
    (handler : List (String × String) → RequestEvent → HandlerOutcome × RequestEvent) :
    PathRoute :=
  { methods := methods, regexpMatch := compiled, paramKeys := keys, handler := handler }

/-- Embeds the implementation overload of `Router.delete` (router.ts
1515–1540), whose body is
`return this.#addRoute(["PATCH"], pathOrDescriptor, handlerOrInit, init);`. -/
def Router.delete (compiled : String → Option (List String)) (keys : List String)
    (handler : List (String × String) → RequestEvent → HandlerOutcome × RequestEvent) :
    PathRoute :=
  Router.addRoute ["PATCH"] compiled keys handler

/-- A discrete trace model of `Router.listen` (router.ts 1635–1676) for
the shutdown behaviour.  Each request is a pair of its arrival tick and
the tick at which its response promise settles; `signalAt` is the tick
at which the shutdown signal passed to `listen` fires.  The abort
listener registered on that signal awaits `Promise.all(this.#handling)`
— the set of in-flight response promises as of the signal — and only
then calls `this.#abortController.abort()`, which is what closes the
transport; meanwhile the `for await` loop keeps dispatching every event
the server yields until that abort. -/
structure DrainModel where
  requests : List (Nat × Nat)
  signalAt : Nat
deriving Repr, DecidableEq

/-- The snapshot `Promise.all(this.#handling)` captures when the abort
listener runs: requests dispatched no later than the signal whose
response promise has not yet settled. -/
def DrainModel.inFlightAtSignal (m : DrainModel) : List (Nat × Nat) :=
  m.requests.filter fun r => r.1 ≤ m.signalAt && m.signalAt < r.2

/-- The tick at which `this.#abortController.abort()` runs: the await of
`Promise.all` resolves when the last promise of the snapshot settles
(and not before the signal itself). -/
def DrainModel.abortTick (m : DrainModel) : Nat :=
  m.inFlightAtSignal.foldl (fun acc r => max acc r.2) m.signalAt

/-- The requests the router dispatches (`this.#handle(requestEvent, …)`
inside the `for await` loop): every event the transport yields before
the internal abort closes it.  Nothing in `listen` consults the external
signal when dispatching, so arrival before the abort tick is the only
gate. -/
def DrainModel.dispatched (m : DrainModel) : List (Nat × Nat) :=
  m.requests.filter fun r => r.1 < m.abortTick

/-- The spec's reading of one status-filter entry (claim C3): an exact
code matches on equality, the star tag matches every status, each named
range matches its numeric range, and the error tag matches exactly when
the client-error or the server-error tag would. -/
def specEntryMatches : StatusFilterEntry → Nat → Prop
  | .code n, s => s = n
  | .star, _ => True
  | .info, s => 100 ≤ s ∧ s ≤ 199
  | .success, s => 200 ≤ s ∧ s ≤ 299
  | .redirect, s => 300 ≤ s ∧ s ≤ 399
  | .clientError, s => 400 ≤ s ∧ s ≤ 499
  | .serverError, s => 500 ≤ s ∧ s ≤ 599
  | .error, s => (400 ≤ s ∧ s ≤ 499) ∨ (500 ≤ s ∧ s ≤ 599)

/-- The early-return scan of the filter list is the boolean disjunction
over its entries. -/
lemma statusFilterMatches_eq_any (l : List StatusFilterEntry) (s : Nat) :
    statusFilterMatches l s =
      l.any fun e =>
        match e with
        | .code n => s == n
        | .star => true
        | .info => isInformationalStatus s
        | .success => isSuccessfulStatus s
        | .redirect => isRedirectStatus s
        | .clientError => isClientErrorStatus s
        | .serverError => isServerErrorStatus s
        | .error => isErrorStatus s := by
  induction l with
  | nil => rfl
  | cons e rest ih =>
    cases e <;> simp only [statusFilterMatches, List.any_cons, ← ih] <;>
      (try split) <;> simp_all

/-- C3: for every status filter and every status code,
`StatusRoute.matches` returns `true` iff the status equals some exact
entry or falls inside some named range entry, with the star tag matching
everything and the error tag matching exactly when client-error or
server-error would. -/
theorem statusRoute_matches_iff (route : StatusRoute) (response : Response) :
    route.matches response = true ↔
      ∃ e ∈ route.status, specEntryMatches e response.status := by
  rw [StatusRoute.matches, statusFilterMatches_eq_any, List.any_eq_true]
  refine exists_congr fun e => and_congr_right fun _ => ?_
  cases e <;>
    simp [specEntryMatches, isInformationalStatus, isSuccessfulStatus,
      isRedirectStatus, isClientErrorStatus, isServerErrorStatus, isErrorStatus]

/-- A response entering the status chain, for exercising claim C1. -/
def c1Original : Response := { status := 200, body := "O" }

/-- The earlier-registered of two status routes matching `200`: its
handler appends `"A"` to the body of the response it is given. -/
def c1First : StatusRoute :=
  { status := [.code 200],
    handler := fun _ r => some { status := 200, body := r.body ++ "A" } }

/-- The later-registered of two status routes matching `200`: its
handler appends `"B"` to the body of the response it is given. -/
def c1Second : StatusRoute :=
  { status := [.code 200],
    handler := fun _ r => some { status := 200, body := r.body ++ "B" } }

/-- C1 (counterexample): with two status routes both matching `200`, the
chain of `Router.#handleStatus` hands the second route the original
response, not the first route's output — the delivered response is the
second transform of the original (`"OB"`), while the claim predicts the
second transform applied on top of the first's output (`"OAB"`). -/
theorem statusChain_counterexample :
    statusChain [c1First, c1Second] [] c1Original =
      { status := 200, body := "OB" } ∧
    c1Second.handle [] (c1First.handle [] c1Original) =
      { status := 200, body := "OAB" } ∧
    ({ status := 200, body := "OB" } : Response) ≠
      { status := 200, body := "OAB" } :=
  ⟨rfl, rfl, by decide⟩

/-- C1 (amended): status routes are applied in registration order but
each matching route's handler receives the response the chain was
entered with; when two status routes both match that response, the
result of the chain is the second route's `handle` applied to the
original response, not to the first route's output. -/
theorem statusChain_pair (s1 s2 : StatusRoute) (hdrs : List (String × String))
    (response : Response) (h1 : s1.matches response = true)
    (h2 : s2.matches response = true) :
    statusChain [s1, s2] hdrs response = s2.handle hdrs response := by
  simp [statusChain, h1, h2]

/-- Witness for `statusChain_pair` at the two concrete `200` routes. -/
theorem statusChain_pair_witness :
    statusChain [c1First, c1Second] [] c1Original = c1Second.handle [] c1Original :=
  statusChain_pair c1First c1Second [] c1Original rfl rfl

/-- A successful match stores the parameter map extracted from the
captures into the route's `#params` field and leaves the other fields
alone. -/
lemma matches_matched_route (decode : String → String) (route : PathRoute)
    (method pathname : String)
    (h : (PathRoute.matches decode route method pathname).1 = .matched) :
    (PathRoute.matches decode route method pathname).2 =
      { route with
        params := some (extractParams decode route.paramKeys
          ((route.regexpMatch pathname).getD [])) } := by
  unfold PathRoute.matches at h ⊢
  cases hm : route.regexpMatch pathname with
  | none => simp [hm] at h
  | some captures =>
    by_cases hc : method ∈ route.methods
    · simp [hm, hc]
    · simp [hm, hc] at h

/-- An unsuccessful or method-refused match returns the route
unchanged. -/
lemma matches_not_matched_route (decode : String → String) (route : PathRoute)
    (method pathname : String)
    (h : (PathRoute.matches decode route method pathname).1 ≠ .matched) :
    (PathRoute.matches decode route method pathname).2 = route := by
  unfold PathRoute.matches at h ⊢
  cases hm : route.regexpMatch pathname with
  | none => simp [hm]
  | some captures =>
    by_cases hc : method ∈ route.methods
    · simp [hm, hc] at h
    · simp [hm, hc]

/-- A route whose `#params` field has never been written, matching
`GET /books/2` against a compiled pattern capturing the id segment. -/
def c4Route : PathRoute :=
  { methods := ["GET"],
    regexpMatch := fun p => if p = "/books/2" then some ["2"] else none,
    paramKeys := ["id"],
    handler := fun _ ev => (.ret .undef, ev) }

/-- C4 (counterexample): calling `matches` on a matching
(method, pathname) input does not leave every field of the route
unchanged — the extracted parameter map is written into the shared
`#params` instance field (route.ts 288), which was unset before the
call. -/
theorem pathRoute_matches_mutates :
    c4Route.params = none ∧
    ((PathRoute.matches id c4Route "GET" "/books/2").2).params =
      some [("id", "2")] ∧
    (some [("id", "2")] : Option (List (String × String))) ≠ none :=
  ⟨rfl, rfl, by decide⟩

/-- C4 (amended): `matches` leaves the route's methods, compiled
pattern, parameter keys and handler unchanged, but stores the extracted
parameter map into the route's `params` instance field on a successful
match (leaving it unchanged otherwise) instead of returning it; the
field is shared by all requests using the route. -/
theorem pathRoute_matches_state (decode : String → String) (route : PathRoute)
    (method pathname : String) :
    ((PathRoute.matches decode route method pathname).2).methods = route.methods ∧
    ((PathRoute.matches decode route method pathname).2).regexpMatch =
      route.regexpMatch ∧
    ((PathRoute.matches decode route method pathname).2).paramKeys =
      route.paramKeys ∧
    ((PathRoute.matches decode route method pathname).2).handler = route.handler ∧
    ((PathRoute.matches decode route method pathname).2).params =
      (if (PathRoute.matches decode route method pathname).1 = .matched then
        some (extractParams decode route.paramKeys
          ((route.regexpMatch pathname).getD []))
      else route.params) := by
  by_cases h : (PathRoute.matches decode route method pathname).1 = .matched
  · rw [matches_matched_route decode route method pathname h]
    simp [h]
  · rw [matches_not_matched_route decode route method pathname h]
    simp [h]

/-- The guarded respond always leaves the event responded. -/
lemma respondChecked_responded (ev : RequestEvent) (r : Response) :
    (ev.respondChecked r).responded = true := by
  unfold RequestEvent.respondChecked
  split <;> simp_all

/-- A route the matcher does not match is skipped by the scan. -/
lemma handleLoop_skip_one (router : Router) (decode : String → String) (req : Request)
    (hdrs : List (String × String)) (route : PathRoute) (rest : List PathRoute)
    (acc : Option Response) (ev : RequestEvent)
    (h : (PathRoute.matches decode route req.pathname req.method).1 ≠ .matched) :
    router.handleLoop decode req hdrs (route :: rest) acc ev =
      router.handleLoop decode req hdrs rest acc ev := by
  conv_lhs => rw [Router.handleLoop.eq_def]
  simp [h]

/-- A prefix of routes the matcher does not match is skipped wholesale. -/
lemma handleLoop_skip_prefix (router : Router) (decode : String → String) (req : Request)
    (hdrs : List (String × String)) (l1 rest : List PathRoute)
    (acc : Option Response) (ev : RequestEvent)
    (h : ∀ r ∈ l1, (PathRoute.matches decode r req.pathname req.method).1 ≠ .matched) :
    router.handleLoop decode req hdrs (l1 ++ rest) acc ev =
      router.handleLoop decode req hdrs rest acc ev := by
  induction l1 with
  | nil => rfl
  | cons r l ih =>
    rw [List.cons_append,
      handleLoop_skip_one router decode req hdrs r (l ++ rest) acc ev (h r (by simp))]
    exact ih fun x hx => h x (by simp [hx])

/-- Scanning a matched route whose `handle` returns a response settles
the request: the event is responded (directly or by the router) and the
remaining routes are never consulted. -/
lemma handleLoop_break (router : Router) (decode : String → String) (req : Request)
    (hdrs : List (String × String)) (route : PathRoute) (rest : List PathRoute)
    (acc : Option Response) (ev : RequestEvent) (resp : Response) (ev1 : RequestEvent)
    (hm : (PathRoute.matches decode route req.pathname req.method).1 = .matched)
    (hh : (PathRoute.matches decode route req.pathname req.method).2.handle ev hdrs =
      (HandleResult.ok (some resp), ev1)) :
    router.handleLoop decode req hdrs (route :: rest) acc ev =
      (if ev1.responded then (some resp, ev1)
       else
        ((some (router.handleStatus ev1 hdrs resp).1,
          (router.handleStatus ev1 hdrs resp).2.respondChecked
            (router.handleStatus ev1 hdrs resp).1))) := by
  conv_lhs => rw [Router.handleLoop.eq_def]
  simp only [hm, hh, if_true, reduceIte]
  split <;> simp [respondChecked_responded]

/-- C2 (amended): the scan over registered routes is first-match-wins
with no `undefined` fallthrough.  `PathRoute.handle` never returns
`undefined` — a handler returning `undefined` is coerced to a
`204 No Content` response — so while the dispatch loop would continue
scanning on an `undefined` route result, a route the dispatch matches
and whose `handle` returns a response always settles the request and
the remaining routes are never consulted; a route the dispatch does not
match is skipped.  The dispatch's match test is the positional call of
router.ts 644–647 into route.ts 271's `(method, pathname)` parameters:
a route is matched when its compiled pattern accepts the request's
method string and its method list contains the request's pathname, so
a request whose path and method fit both routes in the intended sense
matches neither and falls through to the `404` not-found path. -/
theorem route_scan_no_fallthrough (router : Router) (decode : String → String)
    (req : Request) (hdrs : List (String × String)) (route : PathRoute)
    (rest rest2 : List PathRoute) (acc : Option Response) (ev : RequestEvent) :
    (∀ (r : PathRoute) (evx : RequestEvent),
      (PathRoute.handle r evx hdrs).1 ≠ HandleResult.ok none) ∧
    ((PathRoute.matches decode route req.pathname req.method).1 ≠ .matched →
      router.handleLoop decode req hdrs (route :: rest) acc ev =
        router.handleLoop decode req hdrs rest acc ev) ∧
    (∀ (resp : Response) (ev1 : RequestEvent),
      (PathRoute.matches decode route req.pathname req.method).1 = .matched →
      (PathRoute.matches decode route req.pathname req.method).2.handle ev hdrs =
        (HandleResult.ok (some resp), ev1) →
      router.handleLoop decode req hdrs (route :: rest) acc ev =
        router.handleLoop decode req hdrs (route :: rest2) acc ev) := by
  refine ⟨fun r evx => ?_, fun h => handleLoop_skip_one _ _ _ _ _ _ _ _ h,
    fun resp ev1 hm hh => ?_⟩
  · unfold PathRoute.handle
    cases hp : r.params with
    | none => simp
    | some params =>
      cases hr : r.handler params evx with
      | mk out ev2 =>
        cases out with
        | ret x => cases x <;> simp [hp, hr]
        | thrown c => simp [hp, hr]
  · rw [handleLoop_break router decode req hdrs route rest acc ev resp ev1 hm hh,
      handleLoop_break router decode req hdrs route rest2 acc ev resp ev1 hm hh]

/-- The compiled matcher of the pattern `"/x"` used in the claim C2
scenario. -/
def c2Compiled : String → Option (List String) :=
  fun p => if p = "/x" then some [] else none

/-- The earlier-registered route of the claim C2 scenario: registered
for `GET` on the pattern `"/x"`, with a handler that returns
`undefined`. -/
def c2R1 : PathRoute :=
  { methods := ["GET"], regexpMatch := c2Compiled, paramKeys := [],
    handler := fun _ ev => (.ret .undef, ev) }

/-- The later-registered route of the claim C2 scenario: registered for
`GET` on the same pattern `"/x"`, with a handler that returns the value
`"hi"`. -/
def c2R2 : PathRoute :=
  { methods := ["GET"], regexpMatch := c2Compiled, paramKeys := [],
    handler := fun _ ev => (.ret (.value "hi"), ev) }

/-- A router with the two overlapping routes of the claim C2 scenario. -/
def c2Router : Router := { routes := [c2R1, c2R2] }

/-- The request `GET /x` of the claim C2 scenario, whose path and
method fit both registered routes in the intended sense. -/
def c2Req : Request := { method := "GET", pathname := "/x" }

/-- C2 (counterexample): with the parameters in their declared
`(method, pathname)` roles both routes match `GET /x`, and the first
one's handler returns `undefined`; the claim then predicts that the
second route is tried and its result (`"hi"`, status `200`) determines
the response.  But the dispatch feeds `(url.pathname, request.method)`
positionally into those parameters (router.ts 644–647), under which
neither route matches — the request falls through to the not-found path
and the client receives the `404 Not Found` default, neither route's
result. -/
theorem route_scan_counterexample :
    (PathRoute.matches id c2R1 c2Req.method c2Req.pathname).1 = .matched ∧
    (PathRoute.matches id c2R2 c2Req.method c2Req.pathname).1 = .matched ∧
    (PathRoute.matches id c2R1 c2Req.pathname c2Req.method).1 = .noMatch ∧
    (PathRoute.matches id c2R2 c2Req.pathname c2Req.method).1 = .noMatch ∧
    Router.dispatch c2Router id c2Req =
      .ok { responded := true, sent := some notFoundResponse } ∧
    (some notFoundResponse : Option Response) ≠ some { status := 200, body := "hi" } :=
  ⟨rfl, rfl, rfl, rfl, rfl, by decide⟩

/-- A route the dispatch's positional match test accepts for the
request `GET /x`: its compiled matcher accepts the string `"GET"` (as
the compiled form of the bare-parameter pattern `":seg"` does) and its
method list contains `"/x"` (method strings are not validated at
runtime, so such a registration is expressible); its handler returns
`undefined`. -/
def c2Cw : PathRoute :=
  { methods := ["/x"],
    regexpMatch := fun s => if s = "GET" then some ["GET"] else none,
    paramKeys := ["seg"],
    handler := fun _ ev => (.ret .undef, ev) }

/-- Witness for `route_scan_no_fallthrough` at a concrete input: with a
first route the dispatch matches whose handler returns `undefined`, the
scan result does not depend on the routes registered after it. -/
theorem route_scan_no_fallthrough_witness :
    Router.handleLoop c2Router id c2Req [] [c2Cw, c2R2] none {} =
      Router.handleLoop c2Router id c2Req [] [c2Cw] none {} :=
  (route_scan_no_fallthrough c2Router id c2Req [] c2Cw [c2R2] [] none
    {}).2.2 { status := 204, body := "" } {} rfl rfl

/-- The single route of the claim C6 scenario (scenario E): registered
for `GET` on the pattern `"/y"`, with a handler returning `undefined`. -/
def c6Route : PathRoute :=
  { methods := ["GET"],
    regexpMatch := fun p => if p = "/y" then some [] else none,
    paramKeys := [],
    handler := fun _ ev => (.ret .undef, ev) }

/-- A router with only the claim C6 route registered. -/
def c6Router : Router := { routes := [c6Route] }

/-- C6: the divergence of scenario E, evaluated at the failing input
`GET /y`.  With its parameters in their declared `(method, pathname)`
roles the route matches the request, and its `handle` coerces the
handler's `undefined` into the `204 No Content` empty-body response the
claim (and route.ts 260–266) describe.  But the dispatch passes
`(url.pathname, request.method)` positionally into those parameters
(router.ts 644–647, matching the `Route` interface of types.ts that the
class declares to implement), so the route is never matched — the
handler never runs and the client receives the `404 Not Found` default
of the not-found path instead of the `204`. -/
theorem scenario_e_divergence :
    (PathRoute.matches id c6Route "GET" "/y").1 = .matched ∧
    ((PathRoute.matches id c6Route "GET" "/y").2.handle {} []).1 =
      HandleResult.ok (some { status := 204, body := "" }) ∧
    (PathRoute.matches id c6Route "/y" "GET").1 = .noMatch ∧
    Router.dispatch c6Router id { method := "GET", pathname := "/y" } =
      .ok { responded := true, sent := some notFoundResponse } ∧
    notFoundResponse.status = 404 :=
  ⟨rfl, rfl, rfl, rfl, rfl⟩

/-- C7: when no registered route matches the request (including when no
routes are registered at all) and the `onRequest` hook is absent, the
router takes the not-found path: the default `404 Not Found` response is
chosen unless an `onNotFound` hook returns a replacement, and the chosen
response is run through the status chain before being delivered. -/
theorem not_found_flow (router : Router) (decode : String → String) (req : Request)
    (hmatch : ∀ r ∈ router.routes,
      (PathRoute.matches decode r req.pathname req.method).1 ≠ .matched)
    (hreq : router.onRequest = none) :
    (router.onNotFound = none →
      Router.dispatch router decode req =
        .ok { responded := true,
              sent := some (statusChain router.statusRoutes [] notFoundResponse) }) ∧
    (∀ f : Response → Option Response,
      router.onNotFound = some (fun ev resp => (f resp, ev)) →
      Router.dispatch router decode req =
        .ok { responded := true,
              sent := some (statusChain router.statusRoutes []
                ((f notFoundResponse).getD notFoundResponse)) }) := by
  have hloop : router.handleLoop decode req [] router.routes none {} =
      (none, ({} : RequestEvent)) := by
    have h2 := handleLoop_skip_prefix router decode req [] router.routes [] none {} hmatch
    rw [List.append_nil] at h2
    rw [h2]
    rfl
  constructor
  · intro hnf
    unfold Router.dispatch
    simp only [hreq]
    simp [hloop, Router.handleStatus, hnf, notFoundResponse, RequestEvent.respond]
  · intro f hnf
    unfold Router.dispatch
    simp only [hreq]
    simp [hloop, Router.handleStatus, hnf, notFoundResponse, RequestEvent.respond]

/-- A status route matching every response, appending a marker to the
body, for the claim C7 scenario. -/
def c7Status : StatusRoute :=
  { status := [.star],
    handler := fun _ r => some { status := r.status, body := r.body ++ "!" } }

/-- The replacement the claim C7 `onNotFound` hook supplies. -/
def c7f : Response → Option Response :=
  fun _ => some { status := 200, body := "patched" }

/-- A router with no routes, one catch-all status route and an
`onNotFound` hook, for the claim C7 scenario. -/
def c7Router : Router :=
  { statusRoutes := [c7Status], onNotFound := some fun ev resp => (c7f resp, ev) }

/-- Witness for `not_found_flow` at the concrete claim C7 scenario:
with no routes registered, the `onNotFound` replacement is delivered
after passing through the status chain. -/
theorem not_found_flow_witness :
    Router.dispatch c7Router id { method := "GET", pathname := "/missing" } =
      .ok { responded := true,
            sent := some (statusChain c7Router.statusRoutes []
              ((c7f notFoundResponse).getD notFoundResponse)) } :=
  (not_found_flow c7Router id { method := "GET", pathname := "/missing" }
    (by simp [c7Router]) rfl).2 c7f rfl

/-- When the `onNotFound` hook does not touch the event (or is absent),
`Router.#handleStatus` leaves the event state unchanged — status
handlers are pure response transformers. -/
lemma handleStatus_event_eq (router : Router) (ev : RequestEvent)
    (hdrs : List (String × String)) (resp : Response)
    (hnf : ∀ hook evx r, router.onNotFound = some hook → (hook evx r).2 = evx) :
    (router.handleStatus ev hdrs resp).2 = ev := by
  unfold Router.handleStatus
  cases ho : router.onNotFound with
  | none => split <;> simp [ho]
  | some hook => split <;> simp [ho, hnf hook ev resp ho]

/-- As long as the `onNotFound` hook does not respond through the event,
the dispatch of `Router.#handle` finishes without raising a fault: every
other respond it issues is guarded by a `responded` check. -/
lemma dispatch_no_fault (router : Router) (decode : String → String) (req : Request)
    (hnf : ∀ hook evx r, router.onNotFound = some hook → (hook evx r).2 = evx) :
    ∃ evOut, Router.dispatch router decode req = .ok evOut := by
  unfold Router.dispatch
  cases ho : router.onRequest with
  | none =>
    by_cases hr : (router.handleLoop decode req [] router.routes none {}).2.responded
    · exact ⟨(router.handleLoop decode req [] router.routes none {}).2,
        by simp [ho, hr]⟩
    · refine ⟨RequestEvent.mk true (some (router.handleStatus
          (router.handleLoop decode req [] router.routes none {}).2 []
          ((router.handleLoop decode req [] router.routes none {}).1.getD
            notFoundResponse)).1), ?_⟩
      simp only [ho]
      simp [hr, RequestEvent.respond, handleStatus_event_eq router _ _ _ hnf]
  | some hook =>
    by_cases h0 : (hook {}).responded
    · exact ⟨hook {}, by simp [ho, h0]⟩
    · by_cases hr :
        (router.handleLoop decode req [] router.routes none (hook {})).2.responded
      · exact ⟨(router.handleLoop decode req [] router.routes none (hook {})).2,
          by simp [ho, h0, hr]⟩
      · refine ⟨RequestEvent.mk true (some (router.handleStatus
            (router.handleLoop decode req [] router.routes none (hook {})).2 []
            ((router.handleLoop decode req [] router.routes none (hook {})).1.getD
              notFoundResponse)).1), ?_⟩
        simp only [ho]
        simp [h0, hr, RequestEvent.respond, handleStatus_event_eq router _ _ _ hnf]

/-- C5 (amended): calling `respond` a second time on the same event
raises the already-responded fault; and the router's dispatch raises no
fault provided no hook responds through the event during the not-found
status processing — the dispatch checks the `responded` flag before
every respond it issues except the final not-found respond, whose check
happens before the status processing rather than after. -/
theorem respond_once_guarantee (ev : RequestEvent) (r r2 : Response)
    (ev1 : RequestEvent) (router : Router) (decode : String → String) (req : Request)
    (h : ev.respond r = .ok ev1)
    (hnf : ∀ hook evx resp, router.onNotFound = some hook → (hook evx resp).2 = evx) :
    ev1.respond r2 = .error .alreadyResponded ∧
    ∃ evOut, Router.dispatch router decode req = .ok evOut := by
  have hev1 : ev1 = { responded := true, sent := some r } := by
    unfold RequestEvent.respond at h
    split at h
    · simp at h
    · simpa using h.symm
  exact ⟨by rw [hev1]; rfl, dispatch_no_fault router decode req hnf⟩

/-- Witness for `respond_once_guarantee`: a concrete double respond
faults, and the dispatch of the empty router raises no fault. -/
theorem respond_once_guarantee_witness :
    (({ responded := true, sent := some { status := 200, body := "" } } :
        RequestEvent).respond { status := 200, body := "" } =
      .error .alreadyResponded) ∧
    ∃ evOut, Router.dispatch {} id { method := "GET", pathname := "/w" } = .ok evOut :=
  respond_once_guarantee {} { status := 200, body := "" } { status := 200, body := "" }
    { responded := true, sent := some { status := 200, body := "" } } {} id
    { method := "GET", pathname := "/w" } rfl
    (fun _ _ _ hc => Option.noConfusion hc)

/-- The `onNotFound` hook of the claim C5 scenario: it responds to the
event directly (through the event's `respond`, here on an event that
has not yet responded) and returns no replacement. -/
def c5Hook : RequestEvent → Response → Option Response × RequestEvent :=
  fun ev resp => (none, ev.respondChecked resp)

/-- A router with no routes whose `onNotFound` hook responds directly,
for the claim C5 counterexample. -/
def c5Router : Router := { onNotFound := some c5Hook }

/-- C5 (counterexample): with an `onNotFound` hook that responds through
the event and returns no replacement, the dispatch reaches the final
not-found respond (router.ts 701) without re-checking the `responded`
flag and raises the already-responded fault — the router's own dispatch
triggers the double-respond fault under a hook behavior it controls. -/
theorem dispatch_double_respond_counterexample :
    Router.dispatch c5Router id { method := "GET", pathname := "/missing" } =
      .error .alreadyResponded := rfl

/-- C9 (amended): when the first route the dispatch matches (under its
positional `(pathname, method)` invocation of `matches`) has a handler
that throws, and the `onError` hook returns a response while the event
has not yet responded, that response is sent to the client directly by
`Router.#error` — it is not run through the status chain. -/
theorem onerror_response_sent_directly (router : Router) (decode : String → String)
    (req : Request) (route : PathRoute) (rest : List PathRoute) (c : ErrCause)
    (resp : Response)
    (hroutes : router.routes = route :: rest)
    (hreq : router.onRequest = none)
    (hmatch : (PathRoute.matches decode route req.pathname req.method).1 = .matched)
    (hhandler : ∀ p ev, route.handler p ev = (.thrown c, ev))
    (herr : router.onError = some fun ev _ => (some resp, ev)) :
    Router.dispatch router decode req =
      .ok { responded := true, sent := some resp } := by
  have hh : (PathRoute.matches decode route req.pathname req.method).2.handle {} [] =
      (HandleResult.err c, {}) := by
    rw [matches_matched_route decode route req.pathname req.method hmatch]
    unfold PathRoute.handle
    simp [hhandler]
  have herr2 : router.error {} c = { responded := true, sent := some resp } := by
    unfold Router.error
    simp [herr]
  have hloop : router.handleLoop decode req [] (route :: rest) none {} =
      (none, { responded := true, sent := some resp }) := by
    conv_lhs => rw [Router.handleLoop.eq_def]
    simp [hmatch, hh, herr2]
  unfold Router.dispatch
  simp only [hreq]
  simp [hroutes, hloop]

/-- The route of the claim C9 scenario, built so that the dispatch's
positional match test accepts it for the request `GET /boom`: its
compiled matcher accepts the string `"GET"` (as the compiled form of
the bare-parameter pattern `":seg"` does) and its method list contains
`"/boom"` (method strings are not validated at runtime, so such a
registration is expressible); its handler throws.  Under the
dispatch's `(pathname, method)` invocation of route.ts 271 these are
exactly the routes a request can reach. -/
def c9Route : PathRoute :=
  { methods := ["/boom"],
    regexpMatch := fun s => if s = "GET" then some ["GET"] else none,
    paramKeys := ["seg"],
    handler := fun _ ev => (.thrown { msg := "boom" }, ev) }

/-- The response the claim C9 `onError` hook supplies. -/
def c9Resp : Response := { status := 418, body := "custom" }

/-- A status route matching every response and appending a marker to the
body, which claim C9 expects to run over the `onError` response. -/
def c9Status : StatusRoute :=
  { status := [.star],
    handler := fun _ r => some { status := r.status, body := r.body ++ "X" } }

/-- A router with the throwing route, the catch-all status route and the
response-supplying `onError` hook, for the claim C9 scenario. -/
def c9Router : Router :=
  { routes := [c9Route], statusRoutes := [c9Status],
    onError := some fun ev _ => (some c9Resp, ev) }

/-- C9 (counterexample): on the request `GET /boom` the dispatch
matches the route (its pattern accepts `"GET"`, its method list
contains `"/boom"`), the handler throws, the error is caught at the
dispatch boundary and `onError` returns a response on the not-yet
responded event; the delivered response is that `onError` response
itself, although the registered catch-all status route matches it and
would have transformed it — the claim's "run through the StatusRoute
chain" does not happen. -/
theorem onerror_counterexample :
    (PathRoute.matches id c9Route "/boom" "GET").1 = .matched ∧
    Router.dispatch c9Router id { method := "GET", pathname := "/boom" } =
      .ok { responded := true, sent := some c9Resp } ∧
    statusChain c9Router.statusRoutes [] c9Resp =
      { status := 418, body := "customX" } ∧
    c9Resp ≠ ({ status := 418, body := "customX" } : Response) :=
  ⟨rfl, rfl, rfl, by decide⟩

/-- Witness for `onerror_response_sent_directly` at the concrete claim
C9 scenario. -/
theorem onerror_response_sent_directly_witness :
    Router.dispatch c9Router id { method := "GET", pathname := "/boom" } =
      .ok { responded := true, sent := some c9Resp } :=
  onerror_response_sent_directly c9Router id { method := "GET", pathname := "/boom" }
    c9Route [] { msg := "boom" } c9Resp rfl rfl rfl (fun _ _ => rfl) rfl

/-- The compiled matcher of the pattern `"/item"` used for claim C10. -/
def c10Compiled : String → Option (List String) :=
  fun p => if p = "/item" then some [] else none

/-- A trivial handler for the claim C10 route. -/
def c10Handler :
    List (String × String) → RequestEvent → HandlerOutcome × RequestEvent :=
  fun _ ev => (.ret (.value "gone"), ev)

/-- The route `Router.delete("/item", handler)` actually registers. -/
def c10Route : PathRoute := Router.delete c10Compiled [] c10Handler

/-- C10: `Router.delete` registers a route whose method list is
`["PATCH"]`, not `["DELETE"]` — a `DELETE` request whose path matches
the pattern is refused by the method check (`NOT_ALLOWED`), while a
`PATCH` request is the one the route matches. -/
theorem delete_registers_patch :
    c10Route.methods = ["PATCH"] ∧
    c10Route.methods ≠ ["DELETE"] ∧
    (PathRoute.matches id c10Route "DELETE" "/item").1 = .notAllowed ∧
    (PathRoute.matches id c10Route "PATCH" "/item").1 = .matched :=
  ⟨rfl, by decide, rfl, rfl⟩

/-- Every settle tick reachable by the fold is at least the
accumulator. -/
lemma foldl_max_le_init (l : List (Nat × Nat)) (acc : Nat) :
    acc ≤ l.foldl (fun a r => max a r.2) acc := by
  induction l generalizing acc with
  | nil => simp
  | cons x xs ih => exact le_trans (le_max_left acc x.2) (ih (max acc x.2))

/-- Every member's settle tick is bounded by the fold of the maxima. -/
lemma mem_le_foldl_max (l : List (Nat × Nat)) (acc : Nat) (r : Nat × Nat)
    (h : r ∈ l) : r.2 ≤ l.foldl (fun a x => max a x.2) acc := by
  induction l generalizing acc with
  | nil => cases h
  | cons x xs ih =>
    rcases List.mem_cons.mp h with h1 | h2
    · subst h1
      exact le_trans (le_max_right acc r.2) (foldl_max_le_init xs (max acc r.2))
    · exact ih (max acc x.2) h2

/-- C8 (amended): the internal abort — which is what closes the
transport — happens only after every response promise present in the
in-flight set at signal time has settled; the router does not, however,
stop dispatching events at the signal, only at the abort. -/
theorem drain_settles_before_abort (m : DrainModel) (r : Nat × Nat)
    (h : r ∈ m.inFlightAtSignal) : r.2 ≤ m.abortTick :=
  mem_le_foldl_max m.inFlightAtSignal m.signalAt r h

/-- The listen trace of the claim C8 counterexample: one request in
flight when the signal fires at tick `1` (settling at tick `5`), and a
second request arriving at tick `2`, after the signal but before the
drain completes. -/
def c8Model : DrainModel := { requests := [(0, 5), (2, 9)], signalAt := 1 }

/-- C8 (counterexample): the request arriving at tick `2`, strictly
after the shutdown signal at tick `1`, is still dispatched, because the
transport only stops yielding events at the internal abort (tick `5`,
when the drain of the signal-time snapshot completes) — the claim's "no
new RequestEvents are dispatched" after the signal is false. -/
theorem drain_counterexample :
    (2, 9) ∈ c8Model.dispatched ∧ c8Model.signalAt < 2 := by decide

/-- Witness for `drain_settles_before_abort` at the concrete claim C8
trace: the request in flight at the signal settles no later than the
abort. -/
theorem drain_settles_before_abort_witness : (0, 5).2 ≤ c8Model.abortTick :=
  drain_settles_before_abort c8Model (0, 5) (by decide)

end Acorn
